import Mathlib

/-!
Verification of the strong/weak reference-counted shared pointer in
`src/Arc.rs` of this repository.

Modelling conventions:
* the `usize` counters become `Nat`, with explicit reduction modulo `2^64`
  at the one operation (`fetch_add`) whose hardware semantics wraps;
* a process abort (`std::process::abort()`) and a failed `assert!` are both
  modelled as the outcome `Option.none` of the operation;
* the source file does not compile as written — it mixes field names
  (`ref_count` for the declared `data_ref_count`, `ptr`/`weak`/`self_ptr`)
  and in two places uses a counter contradicting the field documentation on
  lines 5-8.  Pure *name* slips are resolved by those field comments
  (`data_ref_count`: "Number of Arcs"; `alloc_ref_count`: "Number of Arcs
  and Weaks combined"); every place where the source names an *existing but
  different* counter is translated literally, because that choice of counter
  is exactly what several claims are about.
-/

/-- Largest value of the source's `usize` counters, `2^64 - 1`. -/
def USIZE_MAX : Nat := 18446744073709551615

/-- Modulus of `usize` arithmetic, `2^64`. -/
def USIZE_MOD : Nat := 18446744073709551616

/-- The shared heap block of `src/Arc.rs` lines 4-11: `data_ref_count` counts
the live `Arc` handles, `alloc_ref_count` the live handles of any kind, and
`data` is the payload. -/
structure ArcData (T : Type) where
  data_ref_count : Nat
  alloc_ref_count : Nat
  data : T
deriving DecidableEq

namespace Arc

/-- `Arc::new` (`src/Arc.rs` lines 31-41): a fresh block with
`alloc_ref_count = 1`, `data_ref_count = 1` and the value moved into the
payload. -/
def new {T : Type} (v : T) : ArcData T := ⟨1, 1, v⟩

/-- `Arc::get_mut` (`src/Arc.rs` lines 49-69): compare-exchange
`alloc_ref_count` from `1` to the sentinel `usize::MAX`; on failure return
`None` untouched; on success read `data_ref_count` (`is_unique`), store `1`
back into `alloc_ref_count`, and yield the payload exactly when
`data_ref_count` was `1`.  Result: the optional mutable access paired with
the final block state. -/
def get_mut {T : Type} (st : ArcData T) : Option T × ArcData T :=
  if st.alloc_ref_count = 1 then
    let locked : ArcData T := { st with alloc_ref_count := USIZE_MAX }
    let is_unique : Bool := locked.data_ref_count = 1
    let unlocked : ArcData T := { locked with alloc_ref_count := 1 }
    if is_unique then (some unlocked.data, unlocked) else (none, unlocked)
  else
    (none, st)

/-- Outcome of one iteration of the `Arc::downgrade` loop: re-read and retry,
fatal assertion failure, or success with the updated block. -/
inductive DowngradeStep (T : Type) where
  | retry
  | fatal
  | done (st : ArcData T)
deriving DecidableEq

/-- One iteration of the `Arc::downgrade` loop (`src/Arc.rs` lines 71-91)
with observed value `n`: the sentinel `usize::MAX` forces a spin and re-read;
otherwise `assert!(n < usize::MAX - 1)` is checked (fatal on failure); then
the compare-exchange `n → n + 1` succeeds exactly when `alloc_ref_count`
still equals `n`, and a CAS failure re-reads and retries. -/
def downgrade_step {T : Type} (st : ArcData T) (n : Nat) : DowngradeStep T :=
  if n = USIZE_MAX then .retry
  else if ¬ n < USIZE_MAX - 1 then .fatal
  else if st.alloc_ref_count = n then .done { st with alloc_ref_count := n + 1 }
  else .retry

/-- `Arc::downgrade` run without interference: the initial relaxed load
observes the true `alloc_ref_count`, so one loop iteration decides. -/
def downgrade {T : Type} (st : ArcData T) : DowngradeStep T :=
  downgrade_step st st.alloc_ref_count

/-- `Arc::clone` (`src/Arc.rs` lines 130-139): `fetch_add(1)` on the strong
counter, then `std::process::abort()` when the previous value exceeded
`usize::MAX / 2`.  The source writes `ref_count`, a field that does not
exist; per the field comment on lines 5-6 the counter of Arcs is
`data_ref_count`.  `none` models the abort. -/
def clone {T : Type} (st : ArcData T) : Option (ArcData T) :=
  let old := st.data_ref_count
  let st1 : ArcData T := { st with data_ref_count := (old + 1) % USIZE_MOD }
  if USIZE_MAX / 2 < old then none else some st1

end Arc

namespace Weak

/-- `Weak::clone` (`src/Arc.rs` lines 141-150), translated literally: it
performs `fetch_add(1)` on `data_ref_count` — the strong counter — and
aborts when the previous value exceeded `usize::MAX / 2`.  Note this
contradicts the field documentation (lines 5-8), under which a new Weak
handle should be counted in `alloc_ref_count`; the literal choice of counter
is kept because it is what the source writes. -/
def clone {T : Type} (st : ArcData T) : Option (ArcData T) :=
  let old := st.data_ref_count
  let st1 : ArcData T := { st with data_ref_count := (old + 1) % USIZE_MOD }
  if USIZE_MAX / 2 < old then none else some st1

/-- `Weak::upgrade` (`src/Arc.rs` lines 99-115) run without interference:
load the strong counter as `n`; if `n = 0` return `None` with the state
unchanged; `assert!(n < usize::MAX)` is fatal at the sentinel; otherwise the
compare-exchange advances `data_ref_count` to `n + 1` and the returned `Arc`
wraps `self.clone()` (the literal `Weak::clone` above).  The outer `Option`
is the fatal assert/abort path; the inner pair is upgrade's own optional
result together with the final block state. -/
def upgrade {T : Type} (st : ArcData T) : Option (Option (ArcData T) × ArcData T) :=
  let n := st.data_ref_count
  if n = 0 then some (none, st)
  else if n = USIZE_MAX then none
  else
    let st1 : ArcData T := { st with data_ref_count := n + 1 }
    match Weak.clone st1 with
    | none => none
    | some st2 => some (some st2, st2)

end Weak

/-- A handle-level operation of the public API of `src/Arc.rs`. -/
inductive HandleOp where
  | cloneStrong
  | downgradeStrong
  | cloneWeak
  | upgradeWeak
  | dropStrong
  | dropWeak
deriving DecidableEq

/-- Whole-system state for sequential executions: the block's two counters
together with ghost counts of live handles of each kind and of
payload-destruction (`ManuallyDrop::drop`, line 173) and block-deallocation
(`Box::from_raw`, line 159) events. -/
structure ArcSys where
  liveStrong : Nat
  liveWeak : Nat
  data_ref_count : Nat
  alloc_ref_count : Nat
  destroys : Nat
  frees : Nat
deriving DecidableEq

/-- `Arc::new` at the system level: one Strong handle, no Weak handles, both
counters `1`, nothing destroyed or freed yet. -/
def ArcSys.init : ArcSys := ⟨1, 0, 1, 1, 0, 0⟩

/-- One sequential execution step of a handle operation, translated literally
from `src/Arc.rs` (with the field-name slips resolved as documented above).
`none` marks an execution that aborts, fails an assertion, underflows a
counter, or acts on a handle/block that no longer exists. -/
def ArcSys.step (σ : ArcSys) : HandleOp → Option ArcSys
  | .cloneStrong =>
    -- Arc::clone, lines 130-139
    if σ.frees ≠ 0 ∨ σ.liveStrong = 0 then none
    else if USIZE_MAX / 2 < σ.data_ref_count then none
    else some { σ with data_ref_count := (σ.data_ref_count + 1) % USIZE_MOD,
                       liveStrong := σ.liveStrong + 1 }
  | .downgradeStrong =>
    -- Arc::downgrade, lines 71-91 (sequential, so the CAS succeeds first try)
    if σ.frees ≠ 0 ∨ σ.liveStrong = 0 then none
    else if σ.alloc_ref_count = USIZE_MAX then none
    else if ¬ σ.alloc_ref_count < USIZE_MAX - 1 then none
    else some { σ with alloc_ref_count := σ.alloc_ref_count + 1,
                       liveWeak := σ.liveWeak + 1 }
  | .cloneWeak =>
    -- Weak::clone, lines 141-150: literally increments data_ref_count
    if σ.frees ≠ 0 ∨ σ.liveWeak = 0 then none
    else if USIZE_MAX / 2 < σ.data_ref_count then none
    else some { σ with data_ref_count := (σ.data_ref_count + 1) % USIZE_MOD,
                       liveWeak := σ.liveWeak + 1 }
  | .upgradeWeak =>
    -- Weak::upgrade, lines 99-115: CAS n → n+1 then self.clone()
    if σ.frees ≠ 0 ∨ σ.liveWeak = 0 then none
    else if σ.data_ref_count = 0 then some σ
    else if σ.data_ref_count = USIZE_MAX then none
    else if USIZE_MAX / 2 < σ.data_ref_count + 1 then none
    else some { σ with data_ref_count := σ.data_ref_count + 2,
                       liveStrong := σ.liveStrong + 1 }
  | .dropStrong =>
    -- Arc::drop, lines 165-178: fetch_sub on the strong counter; when the
    -- previous value was 1, destroy the payload and drop one Weak unit
    -- (Weak::drop, lines 152-163)
    if σ.frees ≠ 0 ∨ σ.liveStrong = 0 then none
    else if σ.data_ref_count = 0 then none
    else if σ.data_ref_count = 1 then
      if σ.alloc_ref_count = 0 then none
      else if σ.alloc_ref_count = 1 then
        some { σ with data_ref_count := 0, liveStrong := σ.liveStrong - 1,
                      destroys := σ.destroys + 1, alloc_ref_count := 0,
                      frees := σ.frees + 1 }
      else
        some { σ with data_ref_count := 0, liveStrong := σ.liveStrong - 1,
                      destroys := σ.destroys + 1,
                      alloc_ref_count := σ.alloc_ref_count - 1 }
    else
      some { σ with data_ref_count := σ.data_ref_count - 1,
                    liveStrong := σ.liveStrong - 1 }
  | .dropWeak =>
    -- Weak::drop, lines 152-163: fetch_sub on alloc_ref_count; deallocate
    -- the block when the previous value was 1; the payload destructor is
    -- never invoked on this path
    if σ.frees ≠ 0 ∨ σ.liveWeak = 0 then none
    else if σ.alloc_ref_count = 0 then none
    else if σ.alloc_ref_count = 1 then
      some { σ with alloc_ref_count := 0, liveWeak := σ.liveWeak - 1,
                    frees := σ.frees + 1 }
    else
      some { σ with alloc_ref_count := σ.alloc_ref_count - 1,
                    liveWeak := σ.liveWeak - 1 }

/-- Run a sequence of handle operations from a system state. -/
def ArcSys.run (σ : ArcSys) : List HandleOp → Option ArcSys
  | [] => some σ
  | op :: ops =>
    match σ.step op with
    | none => none
    | some σ1 => σ1.run ops

/-- C1: `Arc::get_mut` returns a usable mutable reference to the payload if
and only if exactly one handle of any kind (Strong or Weak) is alive at the
instant of the call, and — having compare-and-swapped `alloc_ref_count` from
`1` to the sentinel and checked `data_ref_count = 1` — it restores
`alloc_ref_count` to its pre-call value before returning in either outcome
and never writes `data_ref_count`.  The hypotheses state the documented
meaning of the two counters (`src/Arc.rs` lines 5-8) for `liveStrong` live
Strong handles and `liveWeak` live Weak handles, the calling Strong handle
being alive. -/
theorem get_mut_sole_handle_iff {T : Type} (liveStrong liveWeak : Nat) (st : ArcData T)
    (hs : st.data_ref_count = liveStrong)
    (ha : st.alloc_ref_count = liveStrong + liveWeak)
    (hlive : 1 ≤ liveStrong) :
    ((Arc.get_mut st).1.isSome = true ↔ liveStrong + liveWeak = 1)
      ∧ (Arc.get_mut st).2.alloc_ref_count = st.alloc_ref_count
      ∧ (Arc.get_mut st).2.data_ref_count = st.data_ref_count := by
  obtain ⟨s, a, v⟩ := st
  have hs' : s = liveStrong := hs
  have ha' : a = liveStrong + liveWeak := ha
  subst hs'
  subst ha'
  by_cases h : s + liveWeak = 1
  · have h1 : s = 1 := by omega
    have h0 : liveWeak = 0 := by omega
    subst h1
    subst h0
    simp [Arc.get_mut]
  · simp [Arc.get_mut, h]

/-- Concrete instance of `get_mut_sole_handle_iff`: a block with both
counters at `1` and a sole live Strong handle grants mutable access and
leaves both counters unchanged. -/
theorem get_mut_sole_handle_iff_witness :
    ((Arc.get_mut (⟨1, 1, (42 : Nat)⟩ : ArcData Nat)).1.isSome = true ↔ 1 + 0 = 1)
      ∧ (Arc.get_mut (⟨1, 1, (42 : Nat)⟩ : ArcData Nat)).2.alloc_ref_count
          = (⟨1, 1, (42 : Nat)⟩ : ArcData Nat).alloc_ref_count
      ∧ (Arc.get_mut (⟨1, 1, (42 : Nat)⟩ : ArcData Nat)).2.data_ref_count
          = (⟨1, 1, (42 : Nat)⟩ : ArcData Nat).data_ref_count :=
  get_mut_sole_handle_iff 1 0 ⟨1, 1, 42⟩ rfl rfl (by decide)

/-- C2: evaluation of the literal code on the operation sequence
`new; downgrade; Weak::clone; drop the Arc; drop both Weaks`: every handle
gets dropped, yet the payload destructor runs zero times — not exactly
once — because the mistranscribed `Weak::clone` (lines 141-150) inflated the
strong counter, so the final Strong drop reads a previous value of `2` and
skips destruction. -/
theorem payload_destructor_skipped_eval :
    (ArcSys.run ArcSys.init
        [.downgradeStrong, .cloneWeak, .dropStrong, .dropWeak, .dropWeak]).map
      (fun σ => (σ.liveStrong, σ.liveWeak, σ.destroys)) = some (0, 0, 0) := by decide

/-- C3: evaluation of the literal code on the operation sequence
`new; downgrade; Weak::clone; drop both Weaks`: the block's backing storage
is deallocated (`frees = 1`) while a Strong handle is still alive
(`liveStrong = 1`), because the mistranscribed `Weak::clone` failed to count
the second Weak handle in `alloc_ref_count` — the release is not strictly
after the last handle of any kind is dropped. -/
theorem block_freed_while_strong_live_eval :
    (ArcSys.run ArcSys.init [.downgradeStrong, .cloneWeak, .dropWeak, .dropWeak]).map
      (fun σ => (σ.liveStrong, σ.frees, σ.destroys)) = some (1, 1, 0) := by decide

/-- C4: evaluation of the literal `Weak::upgrade` on a block with
`data_ref_count = 1`, `alloc_ref_count = 2` (one Arc, one Weak): it succeeds
but leaves `data_ref_count = 3` and `alloc_ref_count = 2` — the strong
counter is incremented twice (once by the CAS, once by the mistranscribed
`self.clone()`) and `alloc_ref_count` is never incremented, contrary to the
claimed `n → n + 1` on `strongCount` plus one backing increment of
`allocCount`. -/
theorem upgrade_counters_eval :
    Weak.upgrade (⟨1, 2, (0 : Nat)⟩ : ArcData Nat)
      = some (some ⟨3, 2, 0⟩, ⟨3, 2, 0⟩) := by decide

/-- C5: evaluation of the literal `Weak::clone` on a block with
`data_ref_count = 1`, `alloc_ref_count = 2`: it returns with
`data_ref_count = 2` and `alloc_ref_count = 2`, i.e. it increments the
strong counter and leaves `alloc_ref_count` unchanged — the opposite of the
claimed increment. -/
theorem weak_clone_counters_eval :
    Weak.clone (⟨1, 2, (0 : Nat)⟩ : ArcData Nat) = some ⟨2, 2, 0⟩ := by decide

/-- C6: `Arc::downgrade` never proceeds on an iteration that observes the
sentinel `usize::MAX` in `alloc_ref_count` (that iteration spins and
re-reads), and otherwise — below the assertion bound — it
compare-and-swap-increments `alloc_ref_count` by one from the observed value
and returns a new Weak handle; the loop has no empty outcome, so downgrade
never returns an empty result. -/
theorem downgrade_sentinel_and_success :
    (∀ (st : ArcData Nat) (n : Nat), n = USIZE_MAX → Arc.downgrade_step st n = .retry)
      ∧ (∀ st : ArcData Nat, st.alloc_ref_count ≠ USIZE_MAX →
          st.alloc_ref_count < USIZE_MAX - 1 →
          Arc.downgrade st =
            .done { st with alloc_ref_count := st.alloc_ref_count + 1 }) := by
  constructor
  · intro st n hn
    simp [Arc.downgrade_step, hn]
  · intro st h1 h2
    simp [Arc.downgrade, Arc.downgrade_step, h1, h2]

/-- Concrete instance of `downgrade_sentinel_and_success`: observing the
sentinel retries, and downgrading a block with `alloc_ref_count = 1` yields
a Weak handle with `alloc_ref_count = 2`. -/
theorem downgrade_sentinel_and_success_witness :
    Arc.downgrade_step (⟨1, USIZE_MAX, (0 : Nat)⟩ : ArcData Nat) USIZE_MAX = .retry
      ∧ Arc.downgrade (⟨1, 1, (0 : Nat)⟩ : ArcData Nat) = .done ⟨1, 2, 0⟩ := by
  refine ⟨downgrade_sentinel_and_success.1 ⟨1, USIZE_MAX, 0⟩ USIZE_MAX rfl, ?_⟩
  exact downgrade_sentinel_and_success.2 (⟨1, 1, (0 : Nat)⟩ : ArcData Nat)
    (by decide) (by decide)

/-- C7: counterexample to the claim as stated: the `Arc::downgrade` increment
observed at `alloc_ref_count = usize::MAX - 2` — far past the conservative
threshold `usize::MAX / 2` used by the clone paths, and only two below the
representable maximum — succeeds without aborting, pushing the counter to
`usize::MAX - 1`. -/
theorem overflow_threshold_counterexample :
    Arc.downgrade_step (⟨1, USIZE_MAX - 2, (0 : Nat)⟩ : ArcData Nat) (USIZE_MAX - 2)
        = .done ⟨1, USIZE_MAX - 1, 0⟩
      ∧ USIZE_MAX / 2 < USIZE_MAX - 2 := by decide

/-- C7 (amended): overflow handling is per increment site: the fetch-add
sites (`Arc::clone`, `Weak::clone`) abort exactly when the pre-increment
value exceeds `usize::MAX / 2`, and otherwise increment without wrapping;
`Arc::downgrade` fails fatally (assertion) exactly when the observed
non-sentinel value is at least `usize::MAX - 1`, and a successful CAS yields
`n + 1 ≤ usize::MAX - 1`, never wrapping; `Weak::upgrade` fails fatally at
the value `usize::MAX`.  Overflow is always fatal, never a recoverable
result, and no successful increment wraps a counter. -/
theorem overflow_guards_amended :
    (∀ st : ArcData Nat, Arc.clone st = none ↔ USIZE_MAX / 2 < st.data_ref_count)
      ∧ (∀ st st' : ArcData Nat, Arc.clone st = some st' →
          st'.data_ref_count = st.data_ref_count + 1)
      ∧ (∀ st : ArcData Nat, Weak.clone st = none ↔ USIZE_MAX / 2 < st.data_ref_count)
      ∧ (∀ st st' : ArcData Nat, Weak.clone st = some st' →
          st'.data_ref_count = st.data_ref_count + 1)
      ∧ (∀ (st : ArcData Nat) (n : Nat), n ≠ USIZE_MAX → ¬ n < USIZE_MAX - 1 →
          Arc.downgrade_step st n = .fatal)
      ∧ (∀ (st st' : ArcData Nat) (n : Nat), Arc.downgrade_step st n = .done st' →
          st'.alloc_ref_count = n + 1 ∧ n + 1 ≤ USIZE_MAX - 1)
      ∧ (∀ st : ArcData Nat, st.data_ref_count = USIZE_MAX → Weak.upgrade st = none) := by
  refine ⟨?_, ?_, ?_, ?_, ?_, ?_, ?_⟩
  · intro st
    by_cases hgt : USIZE_MAX / 2 < st.data_ref_count <;> simp [Arc.clone, hgt]
  · intro st st' h
    by_cases hgt : USIZE_MAX / 2 < st.data_ref_count
    · simp [Arc.clone, hgt] at h
    · simp only [Arc.clone, hgt, if_neg, ite_false, Option.some.injEq] at h
      subst h
      have hlt : st.data_ref_count + 1 < USIZE_MOD := by
        simp only [USIZE_MAX] at hgt
        simp only [USIZE_MOD]
        omega
      simp [Nat.mod_eq_of_lt hlt]
  · intro st
    by_cases hgt : USIZE_MAX / 2 < st.data_ref_count <;> simp [Weak.clone, hgt]
  · intro st st' h
    by_cases hgt : USIZE_MAX / 2 < st.data_ref_count
    · simp [Weak.clone, hgt] at h
    · simp only [Weak.clone, hgt, if_neg, ite_false, Option.some.injEq] at h
      subst h
      have hlt : st.data_ref_count + 1 < USIZE_MOD := by
        simp only [USIZE_MAX] at hgt
        simp only [USIZE_MOD]
        omega
      simp [Nat.mod_eq_of_lt hlt]
  · intro st n h1 h2
    simp [Arc.downgrade_step, h1, h2]
  · intro st st' n h
    unfold Arc.downgrade_step at h
    split at h
    · exact absurd h (by simp)
    · split at h
      · exact absurd h (by simp)
      · rename_i hsent hlt
        split at h
        · injection h with h2
          subst h2
          refine ⟨rfl, ?_⟩
          simp only [USIZE_MAX] at hlt ⊢
          omega
        · exact absurd h (by simp)
  · intro st h
    unfold Weak.upgrade
    rw [h]
    have h0 : USIZE_MAX ≠ 0 := by decide
    simp [h0]

/-- Concrete instances of `overflow_guards_amended`: `Arc::clone` aborts just
past `usize::MAX / 2`, `Arc::downgrade` is fatal at an observed
`usize::MAX - 1`, and `Weak::upgrade` is fatal at the sentinel value. -/
theorem overflow_guards_amended_witness :
    Arc.clone (⟨USIZE_MAX / 2 + 1, 1, (0 : Nat)⟩ : ArcData Nat) = none
      ∧ Arc.downgrade_step (⟨1, 1, (0 : Nat)⟩ : ArcData Nat) (USIZE_MAX - 1) = .fatal
      ∧ Weak.upgrade (⟨USIZE_MAX, 1, (0 : Nat)⟩ : ArcData Nat) = none :=
  ⟨(overflow_guards_amended.1 ⟨USIZE_MAX / 2 + 1, 1, 0⟩).mpr (by decide),
   overflow_guards_amended.2.2.2.2.1 ⟨1, 1, 0⟩ (USIZE_MAX - 1) (by decide) (by decide),
   overflow_guards_amended.2.2.2.2.2.2 ⟨USIZE_MAX, 1, 0⟩ rfl⟩

/-- C8: `Arc::new` allocates a fresh block with the value moved into the
payload and both counters initialised to one, and at the system level the
returned Strong handle is the sole handle of any kind referencing the
block. -/
theorem arc_new_initial_counts :
    (∀ (T : Type) (v : T),
        (Arc.new v).data_ref_count = 1 ∧ (Arc.new v).alloc_ref_count = 1
          ∧ (Arc.new v).data = v)
      ∧ ArcSys.init.liveStrong = 1 ∧ ArcSys.init.liveWeak = 0
      ∧ ArcSys.init.data_ref_count = 1 ∧ ArcSys.init.alloc_ref_count = 1
      ∧ ArcSys.init.destroys = 0 ∧ ArcSys.init.frees = 0 :=
  ⟨fun _ _ => ⟨rfl, rfl, rfl⟩, rfl, rfl, rfl, rfl, rfl, rfl⟩

/-- C9: `Arc::get_mut` never writes the strong counter, and whenever its
compare-exchange installs the sentinel it stores `1` — the only value the
compare-exchange can have replaced — back into `alloc_ref_count` before
returning, so every call (in particular every call returning an empty
result) leaves the block, and hence both counters, exactly at their pre-call
values. -/
theorem get_mut_state_frame {T : Type} (st : ArcData T) : (Arc.get_mut st).2 = st := by
  obtain ⟨s, a, v⟩ := st
  by_cases h : a = 1
  · subst h
    by_cases hs : s = 1 <;> simp [Arc.get_mut, hs]
  · simp [Arc.get_mut, h]

/-- C10: a call to `Weak::upgrade` that returns an empty result performs no
write to either counter: the final block state equals the pre-call one.  All
counter modification upgrade can make happens on the path returning a new
Strong handle. -/
theorem upgrade_none_frame (st st' : ArcData Nat)
    (h : Weak.upgrade st = some (none, st')) : st' = st := by
  simp only [Weak.upgrade] at h
  split at h
  · simp only [Option.some.injEq, Prod.mk.injEq] at h
    exact h.2.symm
  · split at h
    · exact absurd h (by simp)
    · split at h
      · exact absurd h (by simp)
      · simp only [Option.some.injEq, Prod.mk.injEq] at h
        exact absurd h.1.symm (by simp)

/-- Concrete instance of `upgrade_none_frame`: upgrading a Weak handle whose
strong counter is `0` returns an empty result with the block state
unchanged. -/
theorem upgrade_none_frame_witness :
    Weak.upgrade (⟨0, 5, (0 : Nat)⟩ : ArcData Nat) = some (none, ⟨0, 5, 0⟩)
      ∧ (⟨0, 5, 0⟩ : ArcData Nat) = ⟨0, 5, 0⟩ :=
  ⟨by decide, upgrade_none_frame ⟨0, 5, 0⟩ ⟨0, 5, 0⟩ (by decide)⟩
